import Mathlib

/-
Verification development for the SCICON advisor conversation state machine
(backend/advisor/scicon_advisor.py).  The Python module is shallowly embedded:
strings are Lean strings, Python dicts that rely on insertion order become
association lists, the append-only event log of one session becomes a list of
events in chronological order, and every step handler returns the events it
appends together with its reply.  Python's str.lower is modelled for ASCII and
the Italian accented letters occurring in the module's keyword sets; str.strip
removes the usual whitespace characters.
-/

namespace Scicon

/-! ### Python string primitives -/

/-- Lowercasing of one character, covering ASCII and the accented letters used
in the advisor's keyword tables (Python lowercases full Unicode; only these
occur in the module's vocabulary). -/
def pyLowerChar (c : Char) : Char :=
  if 'A' ≤ c ∧ c ≤ 'Z' then Char.ofNat (c.toNat + 32)
  else if c = 'À' then 'à'
  else if c = 'È' then 'è'
  else if c = 'É' then 'é'
  else if c = 'Ì' then 'ì'
  else if c = 'Ò' then 'ò'
  else if c = 'Ù' then 'ù'
  else c

/-- Model of Python str.lower. -/
def strLower (s : String) : String := String.mk (s.data.map pyLowerChar)

def isSpaceChar (c : Char) : Bool :=
  c = ' ' || c = '\t' || c = '\n' || c = '\r'

/-- Model of Python str.strip (no arguments: strip whitespace on both ends). -/
def pyStrip (s : String) : String :=
  String.mk (((s.data.dropWhile isSpaceChar).reverse.dropWhile isSpaceChar).reverse)

/-- List-of-characters prefix test. -/
def isPrefixL : List Char → List Char → Bool
  | [], _ => true
  | _ :: _, [] => false
  | a :: xs, b :: ys => a = b && isPrefixL xs ys

/-- Occurrence of needle as a contiguous segment of hay (Python: needle in hay). -/
def isSubL (n : List Char) : List Char → Bool
  | [] => isPrefixL n []
  | c :: t => isPrefixL n (c :: t) || isSubL n t

/-- Python substring test: needle in hay. -/
def containsSub (needle hay : String) : Bool := isSubL needle.data hay.data

/-- Python s.startswith(pre). -/
def pyStartsWith (s pre : String) : Bool := isPrefixL pre.data s.data

/-- Python truthiness fallback for strings: a or b. -/
def pyOr (a b : String) : String := if a = "" then b else a

/-- Python truthiness fallback for an optional string against a default. -/
def pyOrOpt (o : Option String) (d : String) : String :=
  match o with
  | some s => if s = "" then d else s
  | none => d

/-- Python s.split("-")[0]. -/
def splitHeadDash (s : String) : String :=
  String.mk (s.data.takeWhile (fun c => c ≠ '-'))

/-- Python s.replace("_", " ") as used for the priority label. -/
def replaceUnderscore (s : String) : String :=
  String.mk (s.data.map (fun c => if c = '_' then ' ' else c))

/-! ### Issue canonicalization (ISSUE_SYNONYMS / canonicalize_issue) -/

/-- The ISSUE_SYNONYMS mapping, looked up with a default of the key itself. -/
def issueSynonyms (i : String) : String :=
  if i = "lente" then "lente-ricambio"
  else if i = "vetro" then "lente-ricambio"
  else if i = "lenti" then "lente-ricambio"
  else if i = "lens" then "lente-ricambio"
  else if i = "nasello" then "nasello"
  else if i = "nose" then "nasello"
  else if i = "nosepad" then "nasello"
  else if i = "terminali" then "terminali"
  else if i = "terminal" then "terminali"
  else if i = "tips" then "terminali"
  else if i = "kit-clip" then "kit-clip"
  else if i = "clip" then "kit-clip"
  else if i = "clip-in" then "kit-clip"
  else if i = "inserto" then "kit-clip"
  else i

/-- canonicalize_issue: None (or empty, Python falsiness) maps to None, else
strip + lower and look up the synonym table. -/
def canonicalize_issue (issue : Option String) : Option String :=
  match issue with
  | none => none
  | some s => if s = "" then none else some (issueSynonyms (strLower (pyStrip s)))

/-! ### Answer normalizers -/

/-- normalize_terrain. -/
def normalize_terrain (answer : String) : String :=
  let a := strLower answer
  if containsSub "strad" a then "strada"
  else if containsSub "grav" a || containsSub "ghia" a then "gravel"
  else if containsSub "mtb" a || containsSub "mountain" a then "mtb"
  else "strada"

def rxYesKeywords : List String :=
  ["si", "sì", "yes", "ce l\x27ho", "ce lho", "ce l ho", "già", "gia", "recent"]

def rxNoKeywords : List String :=
  ["no", "non ancora", "devo farla", "devo rifarla", "vecchia", "scaduta"]

/-- normalize_rx_prescription_status. -/
def normalize_rx_prescription_status (answer : String) : String :=
  let a := strLower answer
  if rxYesKeywords.any (fun k => containsSub k a) then "presente"
  else if rxNoKeywords.any (fun k => containsSub k a) then "mancante"
  else "presente"

/-- normalize_rx_solution_choice. -/
def normalize_rx_solution_choice (answer : String) : String :=
  let a := strLower answer
  if containsSub "clip" a || containsSub "inserto" a || containsSub "insert" a then "clip_in"
  else if containsSub "sport" a || containsSub "dedicat" a || containsSub "lenti graduate" a then "sport_rx"
  else if containsSub "non so" a || containsSub "guidami" a || containsSub "decidi tu" a then "non_so"
  else "non_so"

def lightVariabileKeywords : List String :=
  ["varia", "cambia", "ombra", "bosco", "boschi", "tramonto", "altalenante",
   "spesso diversa", "continuamente"]

def lightStabileKeywords : List String :=
  ["stabile", "sempre uguale", "quasi sempre uguale", "costante", "simile",
   "non cambia molto"]

/-- normalize_light_condition. -/
def normalize_light_condition (answer : String) : String :=
  let a := strLower answer
  if lightVariabileKeywords.any (fun k => containsSub k a) then "variabile"
  else if lightStabileKeywords.any (fun k => containsSub k a) then "stabile"
  else if containsSub "sole" a && containsSub "ombra" a then "variabile"
  else "variabile"

/-- normalize_support_issue. -/
def normalize_support_issue (text : String) : String :=
  let t := strLower text
  if containsSub "lente" t || containsSub "vetro" t then "lente"
  else if containsSub "montatura" t || containsSub "frame" t || containsSub "asta" t || containsSub "aste" t then "montatura"
  else if containsSub "vite" t || containsSub "viti" t || containsSub "screw" t then "viti"
  else if containsSub "nasello" t || containsSub "nose" t || containsSub "nosepad" t then "nasello"
  else if containsSub "clip" t || containsSub "inserto" t || containsSub "clip-in" t then "clip"
  else "non_specificato"

/-- normalize_support_model: the possible_models table scanned in insertion
order. -/
def normalize_support_model (answer : String) : String :=
  let a := strLower answer
  if containsSub "aeroshade" a then "Aeroshade"
  else if containsSub "aerowing" a then "Aerowing"
  else if containsSub "aerotrail" a then "Aerotrail"
  else if containsSub "aerocomfort" a then "Aerocomfort"
  else if containsSub "aeroscope" a then "Aeroscope"
  else "modello_non_specificato"

/-- normalize_support_priority. -/
def normalize_support_priority (answer : String) : String :=
  let a := strLower answer
  if containsSub "urgente" a || containsSub "subito" a || containsSub "immediato" a then "urgente"
  else if containsSub "ricambio" a || containsSub "pezzo" a || containsSub "solo" a || containsSub "replacement" a then "ricambio"
  else if containsSub "assistenza" a || containsSub "tecnica" a || containsSub "riparazione" a || containsSub "repair" a || containsSub "ticket" a then "assistenza"
  else if containsSub "va bene" a || containsSub "quando puoi" a || containsSub "non urgente" a then "non_urgente"
  else "non_specificato"

/-! ### Events

One session's slice of the append-only events.jsonl log, in chronological
order.  The free-form data dictionary becomes optional fields; a missing JSON
key is none. -/

structure Event where
  eventType : String
  question_id : Option String
  raw_answer : Option String
  normalized : Option String
  flow : Option String
  text : Option String
  unknown : Option Bool
  model_input : Option String
  model_resolved : Option String
  issue_raw_d : Option String
  issue_key_d : Option String
  priority_d : Option String
  links_count : Option Nat
  has_variants_d : Option Bool
  deriving DecidableEq

def baseEvent (t : String) : Event :=
  ⟨t, none, none, none, none, none, none, none, none, none, none, none, none, none⟩

def evAnswerGiven (qid raw norm : String) : Event :=
  { baseEvent "answer_given" with
      question_id := some qid, raw_answer := some raw, normalized := some norm }

def evAssistantMessage (t : String) : Event :=
  { baseEvent "assistant_message" with text := some t }

def evQuestionAsked (qid t : String) : Event :=
  { baseEvent "question_asked" with question_id := some qid, text := some t }

def evFlowDetected (f : String) : Event :=
  { baseEvent "flow_detected" with flow := some f }

def evVariantUnknown (u : Bool) (raw : String) : Event :=
  { baseEvent "support_variant_unknown" with unknown := some u, raw_answer := some raw }

def evLinksResolved (mi mr ir ik pr : String) (lc : Nat) (hv : Bool) : Event :=
  { baseEvent "support_links_resolved" with
      model_input := some mi, model_resolved := some mr, issue_raw_d := some ir,
      issue_key_d := some ik, priority_d := some pr, links_count := some lc,
      has_variants_d := some hv }

/-- get_flow_for_session: newest-first scan for the last flow_detected event of
the session; missing event (or missing flow key) defaults to sport_flow. -/
def get_flow_for_session (log : List Event) : String :=
  match log.reverse.find? (fun ev => ev.eventType = "flow_detected") with
  | some ev => ev.flow.getD "sport_flow"
  | none => "sport_flow"

/-- get_last_question_id: newest-first scan for the last question_asked event of
the session. -/
def get_last_question_id (log : List Event) : Option String :=
  match log.reverse.find? (fun ev => ev.eventType = "question_asked") with
  | some ev => ev.question_id
  | none => none

/-! ### Spare-parts database

Python dict-of-dicts with insertion order significant; embedded as association
lists: model key to (issue key to URL list). -/

abbrev IssueMap : Type := List (String × List String)

abbrev SpareDB : Type := List (String × IssueMap)

def dbKeys (db : SpareDB) : List String := db.map Prod.fst

def dbGet (db : SpareDB) (k : String) : Option IssueMap :=
  (db.find? (fun e => e.fst = k)).map Prod.snd

def issueMapHas (m : IssueMap) (k : String) : Bool :=
  m.any (fun e => e.fst = k)

def issueMapGet (m : IssueMap) (k : String) : Option (List String) :=
  (m.find? (fun e => e.fst = k)).map Prod.snd

/-! ### Stable sort by key length (Python sorted(xs, key=len)). -/

/-- Shortest-first comparison on keys. -/
def lenLE (a b : String) : Prop := a.length ≤ b.length

instance : DecidableRel lenLE := fun a b => Nat.decLe a.length b.length

instance : IsTotal String lenLE := ⟨fun a b => Nat.le_total a.length b.length⟩

instance : IsTrans String lenLE := ⟨fun _ _ _ h1 h2 => Nat.le_trans h1 h2⟩

/-- Python sorted(xs, key=len): a stable insertion sort by key length. -/
def sortByLen (l : List String) : List String := List.insertionSort lenLE l

/-! ### resolve_model_key -/

/-- Prefix candidates: keys whose stripped lowercased form starts with the
stripped lowercased input. -/
def rmkCandidates (db : SpareDB) (mLow : String) : List String :=
  (dbKeys db).filter (fun k => pyStartsWith (strLower (pyStrip k)) mLow)

/-- The canonicalized issue hint (Python: canonicalize_issue(issue.strip().
lower()) or issue.strip().lower()). -/
def rmkIssueKey (iss : String) : String :=
  (canonicalize_issue (some (strLower (pyStrip iss)))).getD (strLower (pyStrip iss))

/-- Prefix candidates whose issue map contains the hinted issue key. -/
def rmkIssueMatches (db : SpareDB) (candidates : List String) (issueKey : String) : List String :=
  candidates.filter (fun c =>
    match dbGet db c with
    | some m => issueMapHas m issueKey
    | none => false)

/-- Python's truthiness test on the optional issue hint (an empty string is
falsy). -/
def rmkIssueEff (issue : Option String) : Option String :=
  match issue with
  | some s => if s = "" then none else some s
  | none => none

/-- resolve_model_key. -/
def resolve_model_key (model : String) (db : SpareDB) (issue : Option String) : Option String :=
  if model = "" || db.isEmpty then none
  else if (dbGet db model).isSome then some model
  else
    let mLow := strLower (pyStrip model)
    match (dbKeys db).find? (fun k => strLower (pyStrip k) = mLow) with
    | some k => some k
    | none =>
      let candidates := rmkCandidates db mLow
      if candidates.isEmpty then none
      else
        match rmkIssueEff issue with
        | some iss =>
          let issueMatches := rmkIssueMatches db candidates (rmkIssueKey iss)
          if issueMatches.length = 1 then issueMatches.head?
          else if issueMatches.length > 1 then (sortByLen issueMatches).head?
          else (sortByLen candidates).head?
        | none => (sortByLen candidates).head?

/-! ### User profile and its reconstruction from the log -/

structure Profile where
  flow_type : String
  terrain : Option String
  light_condition : Option String
  sport_priority : Option String
  rx_prescription_status : Option String
  rx_solution_choice : Option String
  rx_priority : Option String
  support_issue : Option String
  support_model : Option String
  support_priority : Option String
  support_variant_unknown : Bool
  deriving DecidableEq

/-- The profile before any answer_given event is replayed (session_id is an
opaque token threaded unchanged and omitted here). -/
def initProfile (log : List Event) : Profile :=
  { flow_type := get_flow_for_session log
    terrain := none
    light_condition := none
    sport_priority := none
    rx_prescription_status := none
    rx_solution_choice := none
    rx_priority := none
    support_issue := none
    support_model := none
    support_priority := none
    support_variant_unknown := false }

/-- The do-not-know test of the profile builder's SUP_Q2 branch. -/
def profileSupQ2DontKnow (rawLow : String) : Bool :=
  containsSub "non lo so" rawLow || containsSub "non so" rawLow ||
  containsSub "non ricordo" rawLow || containsSub "non saprei" rawLow

/-- One step of build_user_profile_from_logs: the effect of one event on the
profile (non answer_given events, and unrecognized question ids, are skipped). -/
def applyAnswerEvent (p : Profile) (ev : Event) : Profile :=
  if ev.eventType = "answer_given" then
    let qid := ev.question_id
    let raw := pyStrip (ev.raw_answer.getD "")
    let normalized := pyStrip (ev.normalized.getD "")
    if qid = some "SUP_Q1" then
      { p with support_issue := canonicalize_issue (some (pyOr normalized (normalize_support_issue raw))) }
    else if qid = some "SUP_Q2" then
      let rawLow := strLower raw
      if profileSupQ2DontKnow rawLow then
        { p with support_model := some "modello_non_specificato",
                 support_variant_unknown := true }
      else if raw ≠ "" && containsSub "-" raw then
        { p with support_model := some (pyStrip raw) }
      else
        let modelNorm := pyOr normalized (normalize_support_model raw)
        { p with support_model := some (pyOr modelNorm "modello_non_specificato") }
    else if qid = some "SUP_Q3" then
      { p with support_priority := some (pyOr normalized (normalize_support_priority raw)) }
    else p
  else p

/-- build_user_profile_from_logs: replay the session's events chronologically. -/
def build_user_profile_from_logs (log : List Event) : Profile :=
  log.foldl applyAnswerEvent (initProfile log)

/-! ### Step handler results

Each handler returns its reply dictionary plus the events it appends to the
log, in append order.  Randomized phrasing (random.choice over equivalent
acknowledgment variants in the sport and RX handlers) is modelled by selecting
the first variant: the choice never influences events, control flow or any
field a claim mentions. -/

structure Recommendation where
  model : String
  resolved_model : String
  issue : String
  issue_key : String
  priority : String
  direct_links : List String
  has_variants : Bool
  deriving DecidableEq

structure StepResult where
  events : List Event
  assistant_message : String
  next_question : Option String
  recommendation : Option Recommendation
  deriving DecidableEq

/-- The question id carried by the last question_asked event a handler
appended. -/
def lastAskedQid (r : StepResult) : Option String :=
  match r.events.reverse.find? (fun ev => ev.eventType = "question_asked") with
  | some ev => ev.question_id
  | none => none

/-- The shared SUP_Q3 priority question text. -/
def q3PriorityText : String :=
  "Qual è la tua priorità?\n- mi serve solo il pezzo di ricambio\n- ho bisogno di assistenza tecnica\n- è urgente\n- non è urgente"

/-! ### Support flow: SUP_Q1 handler -/

def supIssueMsg (issue : String) : String :=
  if issue = "lente" then "Ok, hai un problema legato alla lente."
  else if issue = "montatura" then "Ok, hai riscontrato un problema sulla montatura o sulle aste."
  else if issue = "viti" then "Ok, sembra un problema di viti o piccoli componenti."
  else if issue = "nasello" then "Ok, possiamo risolvere il problema del nasello."
  else if issue = "clip" then "È un problema relativo all\x27inserto ottico / clip-in."
  else "Ok, ho capito il problema generale."

def supQ2Text : String :=
  "Su quale modello hai riscontrato il problema? (Aeroshade, Aerowing, Aerotrail, ecc.)"

/-- process_support_first_answer. -/
def process_support_first_answer (answer : String) : StepResult :=
  let issue := normalize_support_issue answer
  let assistantMsg := supIssueMsg issue ++ " Puoi dirmi su quale modello di occhiale è successo?"
  { events := [evAnswerGiven "SUP_Q1" answer issue,
               evAssistantMessage assistantMsg,
               evQuestionAsked "SUP_Q2" supQ2Text]
    assistant_message := assistantMsg
    next_question := some supQ2Text
    recommendation := none }

/-! ### Support flow: SUP_Q2 handler -/

/-- The B1 guard of process_support_second_answer (user does not know the
variant), applied to the stripped raw input. -/
def supQ2IsDontKnow (rawInput : String) : Bool :=
  let rawLow := strLower rawInput
  rawInput = "" || containsSub "non lo so" rawLow ||
  rawLow = "non so" || rawLow = "boh" || rawLow = "non saprei" || rawLow = "non ricordo" ||
  containsSub "non so la variante" rawLow

def supQ2DontKnowMsg : String :=
  "Va benissimo, succede spesso. Anche senza la variante possiamo andare avanti.\n\nPer trovarla velocemente, prova così:\n1) guarda **sull’asta interna**: spesso c’è scritto qualcosa tipo *Aeroshade-xl* o *Aeroshade-kunken*\n2) se non la trovi, dimmi almeno **colore della montatura** e se è una versione ‘speciale’\n3) se hai a portata di mano il **codice prodotto** o un **link**, incollalo: aiuta a essere precisi\n\nIntanto ti faccio un’ultima domanda per capire quanto è urgente e se ti serve solo il ricambio o assistenza."

/-- B1 branch: record the model as unknown and move straight to SUP_Q3. -/
def supQ2DontKnowResult (answer : String) : StepResult :=
  { events := [evAnswerGiven "SUP_Q2" answer "modello_non_specificato",
               evVariantUnknown true answer,
               evAssistantMessage supQ2DontKnowMsg,
               evQuestionAsked "SUP_Q3" q3PriorityText]
    assistant_message := supQ2DontKnowMsg
    next_question := some q3PriorityText
    recommendation := none }

def supModelAcceptedMsg (m : String) : String :=
  "Perfetto, problema sul modello **" ++ m ++ "**. Ho un\x27ultima domanda per calibrare la soluzione migliore."

/-- Exact-variant branch: the raw answer equals (case-insensitively) a known
database key. -/
def supQ2ExactResult (answer k : String) : StepResult :=
  { events := [evAnswerGiven "SUP_Q2" answer k,
               evVariantUnknown false answer,
               evAssistantMessage (supModelAcceptedMsg k),
               evQuestionAsked "SUP_Q3" q3PriorityText]
    assistant_message := supModelAcceptedMsg k
    next_question := some q3PriorityText
    recommendation := none }

def variantListText (vs : List String) : String :=
  String.intercalate "\n" (vs.map (fun v => "- " ++ v))

def supQ2VariantPromptMsg (baseModel : String) (vsSorted : List String) : String :=
  "Perfetto, problema sul modello **" ++ baseModel ++ "**.\nPer darti il link giusto mi serve una precisazione: quale variante hai?\n" ++ variantListText vsSorted

def copyVariantText : String :=
  "Scrivimi esattamente una delle varianti qui sopra (copiandola)."

/-- More-than-one-variant branch: present the variants (sorted shortest-first)
and ask SUP_Q2_VARIANT. -/
def supQ2VariantPromptResult (answer baseModel : String) (variants : List String) : StepResult :=
  let msg := supQ2VariantPromptMsg baseModel (sortByLen variants)
  { events := [evAnswerGiven "SUP_Q2" answer baseModel,
               evAssistantMessage msg,
               evQuestionAsked "SUP_Q2_VARIANT" copyVariantText]
    assistant_message := msg
    next_question := some copyVariantText
    recommendation := none }

/-- Zero-or-one-variant branch: a second answer_given event re-logs the final
model only when it differs from the base model. -/
def supQ2FinalResult (answer baseModel finalModel : String) : StepResult :=
  let extra := if finalModel ≠ baseModel
    then [evAnswerGiven "SUP_Q2" answer finalModel] else []
  { events := [evAnswerGiven "SUP_Q2" answer baseModel] ++ extra ++
              [evVariantUnknown false answer,
               evAssistantMessage (supModelAcceptedMsg finalModel),
               evQuestionAsked "SUP_Q3" q3PriorityText]
    assistant_message := supModelAcceptedMsg finalModel
    next_question := some q3PriorityText
    recommendation := none }

/-- Base model of the SUP_Q2 answer (Python: normalize_support_model(...) or
"modello_non_specificato"). -/
def supQ2BaseModel (rawInput : String) : String :=
  pyOr (normalize_support_model rawInput) "modello_non_specificato"

/-- Database keys starting (case-insensitively) with the base model. -/
def supQ2Variants (db : SpareDB) (baseModel : String) : List String :=
  (dbKeys db).filter (fun k => pyStartsWith (strLower k) (strLower baseModel))

/-- process_support_second_answer. -/
def process_support_second_answer (db : SpareDB) (answer : String) : StepResult :=
  let rawInput := pyStrip answer
  let rawLow := strLower rawInput
  if supQ2IsDontKnow rawInput then supQ2DontKnowResult answer
  else
    match (dbKeys db).find? (fun k => strLower k = rawLow) with
    | some k => supQ2ExactResult answer k
    | none =>
      let baseModel := supQ2BaseModel rawInput
      let variants := supQ2Variants db baseModel
      if variants.length > 1 then supQ2VariantPromptResult answer baseModel variants
      else
        supQ2FinalResult answer baseModel
          (match variants with
           | [v] => v
           | _ => baseModel)

/-! ### Support flow: SUP_Q2_VARIANT handler -/

def supVariantRetryMsg (variantsText : String) : String :=
  "Ok, così com’è non riesco a riconoscere quella variante.\n\nPer evitare errori, scegli una di queste (copiala uguale):\n" ++ variantsText ++ "\n\nSuggerimenti rapidi:\n- la variante è spesso **incisa sull’asta interna**\n- se mi dici il **colore** o incolli un **codice prodotto/link**, posso restringere ancora di più"

/-- Mismatch branch of process_support_variant_answer: re-filter the candidate
list from the profile's base model and re-ask SUP_Q2_VARIANT. -/
def supVariantRetryResult (log : List Event) (db : SpareDB) (answer raw : String) : StepResult :=
  let ev1 := evAnswerGiven "SUP_Q2_VARIANT" answer raw
  let profile := build_user_profile_from_logs (log ++ [ev1])
  let baseModel := pyOrOpt profile.support_model "modello_non_specificato"
  let baseLow0 := splitHeadDash (strLower (pyStrip baseModel))
  let baseLow :=
    if baseLow0 = "" || baseLow0 = "modello_non_specificato" || baseLow0 = "none"
    then "aero" else baseLow0
  let variants := (dbKeys db).filter (fun k => pyStartsWith (strLower (pyStrip k)) baseLow)
  let variantsSorted := sortByLen variants
  let variantsText :=
    if variantsSorted.isEmpty then "- (nessuna variante trovata)"
    else variantListText variantsSorted
  let msg := supVariantRetryMsg variantsText
  { events := [ev1, evAssistantMessage msg, evQuestionAsked "SUP_Q2_VARIANT" copyVariantText]
    assistant_message := msg
    next_question := some copyVariantText
    recommendation := none }

def supVariantAcceptMsg (k : String) : String :=
  "Perfetto: variante **" ++ k ++ "**. Ho un\x27ultima domanda per calibrare la soluzione migliore."

/-- Match branch of process_support_variant_answer: accept the key and re-log
it as the SUP_Q2 answer. -/
def supVariantAcceptResult (answer k : String) : StepResult :=
  { events := [evAnswerGiven "SUP_Q2_VARIANT" answer k,
               evVariantUnknown false answer,
               evAnswerGiven "SUP_Q2" k k,
               evAssistantMessage (supVariantAcceptMsg k),
               evQuestionAsked "SUP_Q3" q3PriorityText]
    assistant_message := supVariantAcceptMsg k
    next_question := some q3PriorityText
    recommendation := none }

/-- process_support_variant_answer. -/
def process_support_variant_answer (log : List Event) (db : SpareDB) (answer : String) : StepResult :=
  let raw := pyStrip answer
  let rawLow := strLower raw
  match (dbKeys db).find? (fun k => strLower k = rawLow) with
  | none => supVariantRetryResult log db answer raw
  | some k => supVariantAcceptResult answer k

/-! ### Support flow: SUP_Q3 terminal handler -/

def thirdHeader (issueRaw shownModel priorityLabel : String) : String :=
  "Perfetto — riepilogo rapido:\n- Componente: **" ++ issueRaw ++ "**\n- Modello: **" ++ shownModel ++ "**\n- Priorità: **" ++ priorityLabel ++ "**\n\nEcco la soluzione più efficace:\n\n"

def thirdRicambioMulti (issueRaw resolvedModel : String) (directLinks : List String) (variantNote : String) : String :=
  "👉 Ho trovato più opzioni per **" ++ issueRaw ++ "** su **" ++ resolvedModel ++ "** (es. taglie/fit):\n" ++ variantListText directLinks ++ "\n" ++ variantNote ++ "\nSe mi dici quale taglia/fit ti serve (oppure mi mandi una foto del pezzo), ti confermo quella giusta."

def thirdRicambioSingle (issueRaw resolvedModel url variantNote : String) : String :=
  "👉 Ricambio **" ++ issueRaw ++ "** per **" ++ resolvedModel ++ "**:\n- " ++ url ++ "\n" ++ variantNote ++ "\nSe vuoi, ti guido passo-passo nel montaggio."

def thirdRicambioMissing : String :=
  "👉 Posso aiutarti a trovare il ricambio corretto, ma mi manca il link preciso per questa combinazione.\nSe mi scrivi la **variante** (es. *-xl / -kunken*) oppure mi incolli un **codice prodotto / link ordine**, lo recupero."

def thirdAssistenza : String :=
  "👉 Ok. Ti scrivo un testo pronto da inoltrare al supporto SCICON (con modello, problema e richiesta).\nDimmi solo: vuoi includere anche una foto del pezzo o del danno?"

def thirdUrgente : String :=
  "👉 Capito. Per urgenze la via più rapida è contattare subito il supporto.\nSe mi confermi il modello e una foto del problema, ti preparo un messaggio immediato da inoltrare."

def thirdDefault : String :=
  "👉 Perfetto. Possiamo procedere con calma e individuare il ricambio esatto.\nSe mi dai la variante o un codice prodotto, restringo al 100%."

def variantNoteText (resolvedModel : String) : String :=
  "\n_(Nota: ho identificato la variante **" ++ resolvedModel ++ "** per essere più preciso sui ricambi.)_"

/-- process_support_third_answer: logs the SUP_Q3 answer, rebuilds the profile
(from the log that now contains that answer), resolves model and links, and
returns the final recommendation; the unused all_urls_for_issue scaffolding of
the source (assigned and then only passed over) is omitted. -/
def process_support_third_answer (log : List Event) (db : SpareDB) (answer : String) : StepResult :=
  let priority := normalize_support_priority answer
  let ev1 := evAnswerGiven "SUP_Q3" answer priority
  let profile := build_user_profile_from_logs (log ++ [ev1])
  let issueRaw := pyStrip (pyOrOpt profile.support_issue "problema")
  let issueKey := strLower (pyStrip issueRaw)
  let modelInput := pyStrip (pyOrOpt profile.support_model "modello_non_specificato")
  let priorityLabel := replaceUnderscore priority
  let resolvedModel := pyOr ((resolve_model_key modelInput db (some issueRaw)).getD "") modelInput
  let link : Option (List String) :=
    if resolvedModel ≠ "" then
      match dbGet db resolvedModel with
      | some m => issueMapGet m issueKey
      | none => none
    else none
  let directLinks : List String :=
    match link with
    | some urls => (urls.map pyStrip).filter (fun u => u ≠ "")
    | none => []
  let shownModel :=
    if modelInput ≠ "" && modelInput ≠ "modello_non_specificato" then modelInput
    else resolvedModel
  let variantNote :=
    if resolvedModel ≠ "" && modelInput ≠ "" && modelInput ≠ "modello_non_specificato"
        && resolvedModel ≠ modelInput
    then variantNoteText resolvedModel else ""
  let body :=
    if priority = "ricambio" then
      match directLinks with
      | _ :: _ :: _ => thirdRicambioMulti issueRaw resolvedModel directLinks variantNote
      | [u] => thirdRicambioSingle issueRaw resolvedModel u variantNote
      | [] => thirdRicambioMissing
    else if priority = "assistenza" then thirdAssistenza
    else if priority = "urgente" then thirdUrgente
    else thirdDefault
  let assistantMsg := thirdHeader issueRaw shownModel priorityLabel ++ body
  { events := [ev1,
               evLinksResolved modelInput resolvedModel issueRaw issueKey priority
                 directLinks.length false]
    assistant_message := assistantMsg
    next_question := none
    recommendation := some
      { model := shownModel
        resolved_model := resolvedModel
        issue := issueRaw
        issue_key := issueKey
        priority := priority
        direct_links := directLinks
        has_variants := false } }

/-! ### Sport flow: Q1 handler (random.choice modelled by the first variant) -/

def sportQ1BaseMsg (normalized : String) : String :=
  if normalized = "strada" then "Perfetto, quindi principalmente uscite su strada."
  else if normalized = "gravel" then "Ottimo, quindi fai soprattutto uscite gravel: terreni misti e sterrato."
  else if normalized = "mtb" then "Chiaro, quindi usi gli occhiali soprattutto in MTB."
  else "Perfetto."

def sportQ2Text : String :=
  "La luce cambia molto durante le tue uscite (ombre/sole, boschi, tramonto), oppure è abbastanza stabile?"

/-- process_sport_first_answer. -/
def process_sport_first_answer (answer : String) : StepResult :=
  let normalized := normalize_terrain answer
  let assistantMsg := sportQ1BaseMsg normalized ++ " Per completare il quadro ho un\x27altra domanda veloce."
  { events := [evAnswerGiven "Q1" answer normalized,
               evAssistantMessage assistantMsg,
               evQuestionAsked "Q2" sportQ2Text]
    assistant_message := assistantMsg
    next_question := some sportQ2Text
    recommendation := none }

/-! ### The dispatcher (process_answer) -/

def restartMsg : String := "Ok — ripartiamo da qui in modo pulito."

def supQ1Text : String :=
  "Quale componente presenta il problema?\n(lente / montatura-aste / viti / nasello / clip-in / altro)"

def rxQ1Text : String :=
  "Hai già una prescrizione oculistica recente (indicativamente non più vecchia di 1-2 anni)?"

def sportQ1Text : String :=
  "Le tue uscite sono principalmente su strada, gravel o MTB?"

/-- Support-flow fallback for an unexpected question id: restart from SUP_Q1. -/
def supportRestartResult : StepResult :=
  { events := [evQuestionAsked "SUP_Q1" supQ1Text]
    assistant_message := restartMsg
    next_question := some supQ1Text
    recommendation := none }

/-- RX-flow branch of process_answer: always re-asks Q1_RX. -/
def rxRestartResult : StepResult :=
  { events := [evQuestionAsked "Q1_RX" rxQ1Text]
    assistant_message := restartMsg
    next_question := some rxQ1Text
    recommendation := none }

/-- Default (sport) branch of process_answer: always re-asks Q1. -/
def sportRestartResult : StepResult :=
  { events := [evQuestionAsked "Q1" sportQ1Text]
    assistant_message := restartMsg
    next_question := some sportQ1Text
    recommendation := none }

/-- process_answer: the single dispatcher, driven by the flow and the last
logged question id. -/
def process_answer (log : List Event) (db : SpareDB) (answer : String) : StepResult :=
  let flowType := get_flow_for_session log
  let lastQid := get_last_question_id log
  if flowType = "support_flow" then
    if lastQid = some "SUP_Q1" then process_support_first_answer answer
    else if lastQid = some "SUP_Q2" then process_support_second_answer db answer
    else if lastQid = some "SUP_Q2_VARIANT" then process_support_variant_answer log db answer
    else if lastQid = some "SUP_Q3" then process_support_third_answer log db answer
    else supportRestartResult
  else if flowType = "rx_flow" then rxRestartResult
  else sportRestartResult

/-! ### Catalog scorer

Modelled from the spec: the weighted catalog scorer of the advisor
(process_third_answer and its scoring helpers, referenced by
backend/api/advisor_api.py) is not present under src/; only its API caller
remains.  The sport and RX scoring rules below follow spec section 4.6
verbatim. -/

structure CatalogEntry where
  id : String
  name : String
  product_type : String
  rx_compatible : Bool
  rx_modes : List String
  terrain : List String
  light : List String
  sport_priorities : List String
  rx_priorities : List String
  short_reason : String
  deriving DecidableEq

/-- Membership of an optional profile field in an entry attribute set (an
absent field matches nothing). -/
def optMem (o : Option String) (l : List String) : Bool :=
  match o with
  | some v => l.contains v
  | none => false

/-- Modelled from the spec: sport scoring — +3 terrain match, +3 light match,
+4 sport-priority match, +1 flat bonus for product_type sport. -/
def sport_score (p : Profile) (e : CatalogEntry) : Int :=
  (if optMem p.terrain e.terrain then 3 else 0) +
  (if optMem p.light_condition e.light then 3 else 0) +
  (if optMem p.sport_priority e.sport_priorities then 4 else 0) +
  (if e.product_type = "sport" then 1 else 0)

/-- Modelled from the spec: RX scoring — 0 unless rx_compatible; else +4 for a
matching clip_in or sport_rx choice, +2 generic credit for a non_so choice when
the entry has any rx_modes, +4 rx-priority match, +2 terrain, +2 light, +1 flat
bonus for product_type rx. -/
def rx_score (p : Profile) (e : CatalogEntry) : Int :=
  if !e.rx_compatible then 0
  else
    (if p.rx_solution_choice = some "clip_in" && e.rx_modes.contains "clip_in" then 4 else 0) +
    (if p.rx_solution_choice = some "sport_rx" && e.rx_modes.contains "sport_rx" then 4 else 0) +
    (if p.rx_solution_choice = some "non_so" && !e.rx_modes.isEmpty then 2 else 0) +
    (if optMem p.rx_priority e.rx_priorities then 4 else 0) +
    (if optMem p.terrain e.terrain then 2 else 0) +
    (if optMem p.light_condition e.light then 2 else 0) +
    (if e.product_type = "rx" then 1 else 0)

end Scicon

namespace Scicon

/-! ### Lemmas about the stable sort by length -/

lemma sortByLen_perm (l : List String) : List.Perm (sortByLen l) l :=
  List.perm_insertionSort lenLE l

lemma sortByLen_sorted (l : List String) : List.Sorted lenLE (sortByLen l) :=
  List.sorted_insertionSort lenLE l

/-- The head of the sorted list is a member of the original list of minimal
length. -/
lemma sortByLen_head_shortest (l : List String) (x : String)
    (h : (sortByLen l).head? = some x) :
    x ∈ l ∧ ∀ y ∈ l, x.length ≤ y.length := by
  rcases hs : sortByLen l with _ | ⟨a, t⟩
  · rw [hs] at h; cases h
  · rw [hs] at h
    simp only [List.head?_cons, Option.some.injEq] at h
    subst h
    have hperm := sortByLen_perm l
    rw [hs] at hperm
    constructor
    · exact hperm.mem_iff.mp (List.mem_cons_self _ _)
    · intro y hy
      have hy' : y ∈ a :: t := hperm.mem_iff.mpr hy
      rcases List.mem_cons.mp hy' with rfl | hmem
      · exact le_refl _
      · have hsorted := sortByLen_sorted l
        rw [hs] at hsorted
        exact (List.sorted_cons.mp hsorted).1 y hmem

lemma sortByLen_eq_nil_iff (l : List String) : sortByLen l = [] ↔ l = [] := by
  constructor
  · intro h
    have hperm := sortByLen_perm l
    rw [h] at hperm
    exact hperm.symm.eq_nil
  · intro h; subst h; rfl

lemma sortByLen_singleton (v : String) : sortByLen [v] = [v] := rfl

/-! ### Lemmas about log replay -/

lemma get_flow_append (log l : List Event)
    (h : ∀ e ∈ l, e.eventType ≠ "flow_detected") :
    get_flow_for_session (log ++ l) = get_flow_for_session log := by
  unfold get_flow_for_session
  rw [List.reverse_append, List.find?_append]
  have : l.reverse.find? (fun ev => ev.eventType = "flow_detected") = none := by
    rw [List.find?_eq_none]
    intro x hx
    simpa using h x (List.mem_reverse.mp hx)
  rw [this, Option.none_or]

lemma initProfile_append (log l : List Event)
    (h : ∀ e ∈ l, e.eventType ≠ "flow_detected") :
    initProfile (log ++ l) = initProfile log := by
  unfold initProfile
  rw [get_flow_append log l h]

/-- Replaying an extended log is replaying the extension on top of the old
profile, provided the extension carries no flow_detected event. -/
lemma build_append (log l : List Event)
    (h : ∀ e ∈ l, e.eventType ≠ "flow_detected") :
    build_user_profile_from_logs (log ++ l)
      = l.foldl applyAnswerEvent (build_user_profile_from_logs log) := by
  unfold build_user_profile_from_logs
  rw [List.foldl_append, initProfile_append log l h]

lemma applyAnswerEvent_not_answer (p : Profile) (ev : Event)
    (h : ev.eventType ≠ "answer_given") : applyAnswerEvent p ev = p := by
  unfold applyAnswerEvent
  rw [if_neg h]

/-- One replay step never touches the sport and RX fields. -/
lemma applyAnswerEvent_sport_rx (p : Profile) (ev : Event) :
    (applyAnswerEvent p ev).terrain = p.terrain ∧
    (applyAnswerEvent p ev).light_condition = p.light_condition ∧
    (applyAnswerEvent p ev).sport_priority = p.sport_priority ∧
    (applyAnswerEvent p ev).rx_prescription_status = p.rx_prescription_status ∧
    (applyAnswerEvent p ev).rx_solution_choice = p.rx_solution_choice ∧
    (applyAnswerEvent p ev).rx_priority = p.rx_priority := by
  refine ⟨?_, ?_, ?_, ?_, ?_, ?_⟩ <;>
    (simp only [applyAnswerEvent]; split_ifs <;> simp)

lemma foldl_sport_rx (l : List Event) (p : Profile) :
    ((l.foldl applyAnswerEvent p).terrain = p.terrain ∧
     (l.foldl applyAnswerEvent p).light_condition = p.light_condition ∧
     (l.foldl applyAnswerEvent p).sport_priority = p.sport_priority ∧
     (l.foldl applyAnswerEvent p).rx_prescription_status = p.rx_prescription_status ∧
     (l.foldl applyAnswerEvent p).rx_solution_choice = p.rx_solution_choice ∧
     (l.foldl applyAnswerEvent p).rx_priority = p.rx_priority) := by
  induction l generalizing p with
  | nil => simp
  | cons ev evs ih =>
    simp only [List.foldl_cons]
    have h1 := applyAnswerEvent_sport_rx p ev
    have h2 := ih (applyAnswerEvent p ev)
    exact ⟨h2.1.trans h1.1, h2.2.1.trans h1.2.1, h2.2.2.1.trans h1.2.2.1,
           h2.2.2.2.1.trans h1.2.2.2.1, h2.2.2.2.2.1.trans h1.2.2.2.2.1,
           h2.2.2.2.2.2.trans h1.2.2.2.2.2⟩

/-! ### Claim theorems -/

/-- C7: normalize_rx_prescription_status is total over strings and always
returns presente or mancante; any input matching no yes-keyword and no
no-keyword — the empty string included — yields presente, never null and never
an error. -/
theorem C7_rx_prescription_status_total (answer : String) :
    (normalize_rx_prescription_status answer = "presente" ∨
     normalize_rx_prescription_status answer = "mancante") ∧
    ((∀ k ∈ rxYesKeywords, containsSub k (strLower answer) = false) →
     (∀ k ∈ rxNoKeywords, containsSub k (strLower answer) = false) →
     normalize_rx_prescription_status answer = "presente") ∧
    normalize_rx_prescription_status "" = "presente" := by
  refine ⟨?_, ?_, by decide⟩
  · simp only [normalize_rx_prescription_status]
    split_ifs <;> simp
  · intro hy hn
    have hy' : rxYesKeywords.any (fun k => containsSub k (strLower answer)) = false := by
      simp only [List.any_eq_false]
      intro k hk
      simp [hy k hk]
    have hn' : rxNoKeywords.any (fun k => containsSub k (strLower answer)) = false := by
      simp only [List.any_eq_false]
      intro k hk
      simp [hn k hk]
    simp [normalize_rx_prescription_status, hy', hn']

/-- C7 witness: the answer boh matches no yes-keyword and no no-keyword and is
normalized to presente. -/
theorem C7_rx_prescription_status_total_witness :
    normalize_rx_prescription_status "boh" = "presente" :=
  (C7_rx_prescription_status_total "boh").2.1 (by decide) (by decide)

/-- C2: for every profile and catalog entry the sport score is an integer in
the interval from 0 to 11 and the RX score an integer in the interval from 0
to 15, and the RX score is exactly 0 whenever the entry is not rx_compatible,
regardless of every other field. -/
theorem C2_scoring_bounds (p : Profile) (e : CatalogEntry) :
    (0 ≤ sport_score p e ∧ sport_score p e ≤ 11) ∧
    (0 ≤ rx_score p e ∧ rx_score p e ≤ 15) ∧
    (e.rx_compatible = false → rx_score p e = 0) := by
  refine ⟨⟨?_, ?_⟩, ⟨?_, ?_⟩, fun h => ?_⟩
  · unfold sport_score; split_ifs <;> norm_num
  · unfold sport_score; split_ifs <;> norm_num
  · unfold rx_score; split_ifs <;> norm_num
  · unfold rx_score; split_ifs <;> (try norm_num) <;> simp_all
  · simp [rx_score, h]

/-- C2 witness: a non-rx_compatible entry scores 0 on the RX rules even with a
fully matching profile. -/
theorem C2_scoring_bounds_witness :
    rx_score
      { flow_type := "rx_flow", terrain := some "strada",
        light_condition := some "stabile", sport_priority := none,
        rx_prescription_status := some "presente",
        rx_solution_choice := some "clip_in", rx_priority := some "campo_visivo",
        support_issue := none, support_model := none, support_priority := none,
        support_variant_unknown := false }
      { id := "aerotrail_photo", name := "Aerotrail", product_type := "rx",
        rx_compatible := false, rx_modes := ["clip_in"],
        terrain := ["strada", "gravel"], light := ["variabile", "stabile"],
        sport_priorities := [], rx_priorities := ["campo_visivo", "stabilita"],
        short_reason := "r" } = 0 :=
  (C2_scoring_bounds _ _).2.2 rfl

/-- C1 counterexample: with the flow sport_flow and the last question Q1,
process_answer does not run the sport Q1 handler (which would log the answer
and ask Q2); it re-asks Q1. -/
theorem C1_dispatch_counterexample :
    get_flow_for_session
        [evFlowDetected "sport_flow", evQuestionAsked "Q1" sportQ1Text] = "sport_flow" ∧
    get_last_question_id
        [evFlowDetected "sport_flow", evQuestionAsked "Q1" sportQ1Text] = some "Q1" ∧
    process_answer [evFlowDetected "sport_flow", evQuestionAsked "Q1" sportQ1Text] [] "strada"
        ≠ process_sport_first_answer "strada" ∧
    lastAskedQid (process_answer
        [evFlowDetected "sport_flow", evQuestionAsked "Q1" sportQ1Text] [] "strada") = some "Q1" ∧
    lastAskedQid (process_sport_first_answer "strada") = some "Q2" := by
  refine ⟨by decide, by decide, ?_, by decide, by decide⟩
  decide

/-- C1 amended: process_answer selects what to do purely from the pair of
current flow and last question id, but only the support flow dispatches to
per-question handlers (with a fallback restarting at SUP_Q1 for an unexpected
question id); for rx_flow and for every other flow it always re-asks that
flow's first question (Q1_RX, respectively Q1) regardless of the last question
id, without error. -/
theorem C1_dispatch_amended (log : List Event) (db : SpareDB) (answer : String) :
    (get_flow_for_session log = "support_flow" →
      (get_last_question_id log = some "SUP_Q1" →
        process_answer log db answer = process_support_first_answer answer) ∧
      (get_last_question_id log = some "SUP_Q2" →
        process_answer log db answer = process_support_second_answer db answer) ∧
      (get_last_question_id log = some "SUP_Q2_VARIANT" →
        process_answer log db answer = process_support_variant_answer log db answer) ∧
      (get_last_question_id log = some "SUP_Q3" →
        process_answer log db answer = process_support_third_answer log db answer) ∧
      (get_last_question_id log ≠ some "SUP_Q1" →
       get_last_question_id log ≠ some "SUP_Q2" →
       get_last_question_id log ≠ some "SUP_Q2_VARIANT" →
       get_last_question_id log ≠ some "SUP_Q3" →
        process_answer log db answer = supportRestartResult)) ∧
    (get_flow_for_session log = "rx_flow" →
      process_answer log db answer = rxRestartResult) ∧
    (get_flow_for_session log ≠ "support_flow" →
     get_flow_for_session log ≠ "rx_flow" →
      process_answer log db answer = sportRestartResult) := by
  refine ⟨fun hf => ⟨fun hq => ?_, fun hq => ?_, fun hq => ?_, fun hq => ?_,
      fun h1 h2 h3 h4 => ?_⟩, fun hf => ?_, fun h1 h2 => ?_⟩ <;>
    simp_all [process_answer]

/-- C1 amended witness: with flow support_flow and last question SUP_Q2, the
dispatcher runs the support SUP_Q2 handler. -/
theorem C1_dispatch_amended_witness :
    process_answer [evFlowDetected "support_flow", evQuestionAsked "SUP_Q2" supQ2Text] [] "boh"
      = process_support_second_answer [] "boh" :=
  (((C1_dispatch_amended
      [evFlowDetected "support_flow", evQuestionAsked "SUP_Q2" supQ2Text] [] "boh").1
    (by decide)).2.1) (by decide)

lemma build_append_answer (log : List Event) (qid raw norm : String) :
    build_user_profile_from_logs (log ++ [evAnswerGiven qid raw norm])
      = applyAnswerEvent (build_user_profile_from_logs log) (evAnswerGiven qid raw norm) := by
  rw [build_append]
  · simp
  · intro e he
    simp only [List.mem_singleton] at he
    subst he
    simp [evAnswerGiven, baseEvent]

/-- C3 counterexample: an answer strada logged for Q1 does not set
profile.terrain; build_user_profile_from_logs ignores the sport question ids
and leaves terrain null. -/
theorem C3_profile_builder_counterexample :
    (build_user_profile_from_logs
        [evFlowDetected "sport_flow", evAnswerGiven "Q1" "strada" "strada"]).terrain = none ∧
    (build_user_profile_from_logs
        [evFlowDetected "sport_flow", evAnswerGiven "Q1" "strada" "strada"]).terrain
      ≠ some "strada" := by
  refine ⟨by decide, by decide⟩

/-- C3 amended: build_user_profile_from_logs replays answer_given events
chronologically but recognizes only the support question ids: SUP_Q1 sets the
canonicalized support_issue, SUP_Q3 sets support_priority, and SUP_Q2 sets
support_model (do-not-know phrases mark the model unknown; a dash in the raw
answer makes the stripped raw answer win; otherwise the logged normalized
value is used, re-normalizing the raw answer when it is missing), always with
last-write-wins; every other question id — Q1, Q2, Q3, Q1_RX, Q2_RX, Q3_RX
included — is ignored, so the sport and RX profile fields are always null. -/
theorem C3_profile_builder_amended (log : List Event) (qid raw norm : String) :
    ((build_user_profile_from_logs log).terrain = none ∧
     (build_user_profile_from_logs log).light_condition = none ∧
     (build_user_profile_from_logs log).sport_priority = none ∧
     (build_user_profile_from_logs log).rx_prescription_status = none ∧
     (build_user_profile_from_logs log).rx_solution_choice = none ∧
     (build_user_profile_from_logs log).rx_priority = none) ∧
    (qid ≠ "SUP_Q1" → qid ≠ "SUP_Q2" → qid ≠ "SUP_Q3" →
      build_user_profile_from_logs (log ++ [evAnswerGiven qid raw norm])
        = build_user_profile_from_logs log) ∧
    (build_user_profile_from_logs (log ++ [evAnswerGiven "SUP_Q1" raw norm])
       = { build_user_profile_from_logs log with
             support_issue := canonicalize_issue (some (pyOr (pyStrip norm)
               (normalize_support_issue (pyStrip raw)))) }) ∧
    (build_user_profile_from_logs (log ++ [evAnswerGiven "SUP_Q3" raw norm])
       = { build_user_profile_from_logs log with
             support_priority := some (pyOr (pyStrip norm)
               (normalize_support_priority (pyStrip raw))) }) ∧
    (profileSupQ2DontKnow (strLower (pyStrip raw)) = true →
      build_user_profile_from_logs (log ++ [evAnswerGiven "SUP_Q2" raw norm])
        = { build_user_profile_from_logs log with
              support_model := some "modello_non_specificato",
              support_variant_unknown := true }) ∧
    (profileSupQ2DontKnow (strLower (pyStrip raw)) = false →
     pyStrip raw ≠ "" → containsSub "-" (pyStrip raw) = true →
      build_user_profile_from_logs (log ++ [evAnswerGiven "SUP_Q2" raw norm])
        = { build_user_profile_from_logs log with
              support_model := some (pyStrip (pyStrip raw)) }) ∧
    (profileSupQ2DontKnow (strLower (pyStrip raw)) = false →
     containsSub "-" (pyStrip raw) = false →
     pyStrip norm ≠ "" →
      build_user_profile_from_logs (log ++ [evAnswerGiven "SUP_Q2" raw norm])
        = { build_user_profile_from_logs log with
              support_model := some (pyStrip norm) }) ∧
    (profileSupQ2DontKnow (strLower (pyStrip raw)) = false →
     containsSub "-" (pyStrip raw) = false →
     pyStrip norm = "" →
      build_user_profile_from_logs (log ++ [evAnswerGiven "SUP_Q2" raw norm])
        = { build_user_profile_from_logs log with
              support_model := some (pyOr (normalize_support_model (pyStrip raw))
                "modello_non_specificato") }) := by
  refine ⟨?_, ?_, ?_, ?_, ?_, ?_, ?_, ?_⟩
  · have h1 := foldl_sport_rx log (initProfile log)
    unfold build_user_profile_from_logs
    simpa [initProfile] using h1
  · intro h1 h2 h3
    rw [build_append_answer]
    simp [applyAnswerEvent, evAnswerGiven, baseEvent, h1, h2, h3]
  · rw [build_append_answer]
    simp [applyAnswerEvent, evAnswerGiven, baseEvent]
  · rw [build_append_answer]
    simp [applyAnswerEvent, evAnswerGiven, baseEvent]
  · intro hdk
    rw [build_append_answer]
    simp [applyAnswerEvent, evAnswerGiven, baseEvent, hdk]
  · intro hdk hne hdash
    rw [build_append_answer]
    simp [applyAnswerEvent, evAnswerGiven, baseEvent, hdk, hne, hdash]
  · intro hdk hdash hne
    rw [build_append_answer]
    simp [applyAnswerEvent, evAnswerGiven, baseEvent, hdk, hdash, hne, pyOr]
  · intro hdk hdash hnorm
    rw [build_append_answer]
    simp [applyAnswerEvent, evAnswerGiven, baseEvent, hdk, hdash, hnorm, pyOr]

/-- C3 amended witness: an RX answer_given event for Q2_RX leaves the profile
unchanged, and a later SUP_Q2 answer overwrites the support model with the
logged normalized value. -/
theorem C3_profile_builder_amended_witness :
    build_user_profile_from_logs [evAnswerGiven "Q2_RX" "clip" "clip_in"]
      = build_user_profile_from_logs ([] : List Event) ∧
    build_user_profile_from_logs
        [evAnswerGiven "SUP_Q2" "aeroshade grigia" "Aeroshade"]
      = { build_user_profile_from_logs ([] : List Event) with
            support_model := some "Aeroshade" } := by
  constructor
  · exact (C3_profile_builder_amended [] "Q2_RX" "clip" "clip_in").2.1
      (by decide) (by decide) (by decide)
  · exact (C3_profile_builder_amended [] "x" "aeroshade grigia" "Aeroshade").2.2.2.2.2.2.1
      (by decide) (by decide) (by decide)

lemma lastAskedQid_supQ2VariantPromptResult (answer b : String) (vs : List String) :
    lastAskedQid (supQ2VariantPromptResult answer b vs) = some "SUP_Q2_VARIANT" := by
  simp [lastAskedQid, supQ2VariantPromptResult, evAnswerGiven, evAssistantMessage,
        evQuestionAsked, baseEvent]

lemma lastAskedQid_supQ2FinalResult (answer b f : String) :
    lastAskedQid (supQ2FinalResult answer b f) = some "SUP_Q3" := by
  unfold supQ2FinalResult lastAskedQid
  split_ifs <;>
    simp [evAnswerGiven, evVariantUnknown, evAssistantMessage, evQuestionAsked, baseEvent]

lemma lastAskedQid_supVariantRetryResult (log : List Event) (db : SpareDB) (answer raw : String) :
    lastAskedQid (supVariantRetryResult log db answer raw) = some "SUP_Q2_VARIANT" := by
  simp [lastAskedQid, supVariantRetryResult, evAnswerGiven, evAssistantMessage,
        evQuestionAsked, baseEvent]

lemma lastAskedQid_supVariantAcceptResult (answer k : String) :
    lastAskedQid (supVariantAcceptResult answer k) = some "SUP_Q3" := by
  simp [lastAskedQid, supVariantAcceptResult, evAnswerGiven, evVariantUnknown,
        evAssistantMessage, evQuestionAsked, baseEvent]

/-- C4: for a SUP_Q2 answer that is empty or matches a do-not-know phrase, the
handler records the model as modello_non_specificato, logs a
support_variant_unknown event with unknown true, and asks SUP_Q3 next — never
SUP_Q2_VARIANT. -/
theorem C4_supq2_dont_know (db : SpareDB) (answer : String)
    (h : supQ2IsDontKnow (pyStrip answer) = true) :
    evAnswerGiven "SUP_Q2" answer "modello_non_specificato"
        ∈ (process_support_second_answer db answer).events ∧
    evVariantUnknown true answer ∈ (process_support_second_answer db answer).events ∧
    lastAskedQid (process_support_second_answer db answer) = some "SUP_Q3" ∧
    ∀ ev ∈ (process_support_second_answer db answer).events,
      ev.eventType = "question_asked" → ev.question_id = some "SUP_Q3" := by
  have hr : process_support_second_answer db answer = supQ2DontKnowResult answer := by
    unfold process_support_second_answer
    simp [h]
  rw [hr]
  refine ⟨?_, ?_, ?_, ?_⟩
  · simp [supQ2DontKnowResult]
  · simp [supQ2DontKnowResult]
  · simp [lastAskedQid, supQ2DontKnowResult, evAnswerGiven, evVariantUnknown,
          evAssistantMessage, evQuestionAsked, baseEvent]
  · intro ev hev hq
    simp only [supQ2DontKnowResult, List.mem_cons, List.not_mem_nil, or_false] at hev
    rcases hev with rfl | rfl | rfl | rfl
    · simp [evAnswerGiven, baseEvent] at hq
    · simp [evVariantUnknown, baseEvent] at hq
    · simp [evAssistantMessage, baseEvent] at hq
    · simp [evQuestionAsked, baseEvent]

/-- C4 witness: the answer non lo so takes the do-not-know branch. -/
theorem C4_supq2_dont_know_witness :
    evAnswerGiven "SUP_Q2" "non lo so" "modello_non_specificato"
        ∈ (process_support_second_answer [] "non lo so").events ∧
    evVariantUnknown true "non lo so" ∈ (process_support_second_answer [] "non lo so").events ∧
    lastAskedQid (process_support_second_answer [] "non lo so") = some "SUP_Q3" ∧
    ∀ ev ∈ (process_support_second_answer [] "non lo so").events,
      ev.eventType = "question_asked" → ev.question_id = some "SUP_Q3" :=
  C4_supq2_dont_know [] "non lo so" (by decide)

/-- C5: for a SUP_Q2 answer that is neither an exact case-insensitive database
key nor a do-not-know phrase — with strictly more than one key starting
case-insensitively with the normalized base model the handler asks
SUP_Q2_VARIANT and lists all matching variants shortest-first (a sorted
permutation of the candidates) without picking one; with exactly one match
that key is silently accepted and SUP_Q3 asked; with no match the flow
proceeds to SUP_Q3 with the base model as-is. -/
theorem C5_supq2_variant_branching (db : SpareDB) (answer : String)
    (h1 : supQ2IsDontKnow (pyStrip answer) = false)
    (h2 : (dbKeys db).find? (fun k => strLower k = strLower (pyStrip answer)) = none) :
    ((supQ2Variants db (supQ2BaseModel (pyStrip answer))).length > 1 →
       process_support_second_answer db answer
         = supQ2VariantPromptResult answer (supQ2BaseModel (pyStrip answer))
             (supQ2Variants db (supQ2BaseModel (pyStrip answer))) ∧
       lastAskedQid (process_support_second_answer db answer) = some "SUP_Q2_VARIANT" ∧
       (process_support_second_answer db answer).assistant_message
         = supQ2VariantPromptMsg (supQ2BaseModel (pyStrip answer))
             (sortByLen (supQ2Variants db (supQ2BaseModel (pyStrip answer)))) ∧
       List.Sorted lenLE (sortByLen (supQ2Variants db (supQ2BaseModel (pyStrip answer)))) ∧
       List.Perm (sortByLen (supQ2Variants db (supQ2BaseModel (pyStrip answer))))
         (supQ2Variants db (supQ2BaseModel (pyStrip answer)))) ∧
    (∀ v, supQ2Variants db (supQ2BaseModel (pyStrip answer)) = [v] →
       process_support_second_answer db answer
         = supQ2FinalResult answer (supQ2BaseModel (pyStrip answer)) v ∧
       lastAskedQid (process_support_second_answer db answer) = some "SUP_Q3") ∧
    (supQ2Variants db (supQ2BaseModel (pyStrip answer)) = [] →
       process_support_second_answer db answer
         = supQ2FinalResult answer (supQ2BaseModel (pyStrip answer))
             (supQ2BaseModel (pyStrip answer)) ∧
       lastAskedQid (process_support_second_answer db answer) = some "SUP_Q3") := by
  have key : process_support_second_answer db answer =
      (if (supQ2Variants db (supQ2BaseModel (pyStrip answer))).length > 1
       then supQ2VariantPromptResult answer (supQ2BaseModel (pyStrip answer))
              (supQ2Variants db (supQ2BaseModel (pyStrip answer)))
       else supQ2FinalResult answer (supQ2BaseModel (pyStrip answer))
              (match supQ2Variants db (supQ2BaseModel (pyStrip answer)) with
               | [v] => v
               | _ => supQ2BaseModel (pyStrip answer))) := by
    unfold process_support_second_answer
    simp [h1, h2]
  refine ⟨fun hgt => ?_, fun v hv => ?_, fun hnil => ?_⟩
  · rw [key, if_pos hgt]
    exact ⟨rfl, lastAskedQid_supQ2VariantPromptResult _ _ _, rfl,
           sortByLen_sorted _, sortByLen_perm _⟩
  · rw [key, if_neg (by simp [hv]), hv]
    exact ⟨rfl, lastAskedQid_supQ2FinalResult _ _ _⟩
  · rw [key, if_neg (by simp [hnil]), hnil]
    exact ⟨rfl, lastAskedQid_supQ2FinalResult _ _ _⟩

/-- C5 witness: the answer Aeroshade against a database holding Aeroshade-xl
and Aeroshade-kunken enters SUP_Q2_VARIANT listing both variants
shortest-first. -/
theorem C5_supq2_variant_branching_witness :
    lastAskedQid (process_support_second_answer
        [("Aeroshade-kunken", [("nasello", ["uK"])]),
         ("Aeroshade-xl", [("lente-ricambio", ["uX"])])] "Aeroshade")
      = some "SUP_Q2_VARIANT" ∧
    (process_support_second_answer
        [("Aeroshade-kunken", [("nasello", ["uK"])]),
         ("Aeroshade-xl", [("lente-ricambio", ["uX"])])] "Aeroshade").assistant_message
      = supQ2VariantPromptMsg "Aeroshade" ["Aeroshade-xl", "Aeroshade-kunken"] := by
  have h := (C5_supq2_variant_branching
      [("Aeroshade-kunken", [("nasello", ["uK"])]),
       ("Aeroshade-xl", [("lente-ricambio", ["uX"])])] "Aeroshade"
      (by decide) (by decide)).1 (by decide)
  refine ⟨h.2.1, ?_⟩
  rw [h.2.2.1]
  decide

/-- C6: in state SUP_Q2_VARIANT, an answer that does not exactly match a
database key case-insensitively re-asks SUP_Q2_VARIANT with the re-filtered
candidate list and the conversation does not advance; an exact match asks
SUP_Q3 — the only way out of SUP_Q2_VARIANT. -/
theorem C6_variant_state_exits (log : List Event) (db : SpareDB) (answer : String) :
    ((dbKeys db).find? (fun k => strLower k = strLower (pyStrip answer)) = none →
       process_support_variant_answer log db answer
         = supVariantRetryResult log db answer (pyStrip answer) ∧
       lastAskedQid (process_support_variant_answer log db answer) = some "SUP_Q2_VARIANT") ∧
    (∀ k, (dbKeys db).find? (fun k2 => strLower k2 = strLower (pyStrip answer)) = some k →
       process_support_variant_answer log db answer = supVariantAcceptResult answer k ∧
       lastAskedQid (process_support_variant_answer log db answer) = some "SUP_Q3") := by
  constructor
  · intro h
    have hr : process_support_variant_answer log db answer
        = supVariantRetryResult log db answer (pyStrip answer) := by
      unfold process_support_variant_answer
      simp [h]
    exact ⟨hr, by rw [hr]; exact lastAskedQid_supVariantRetryResult _ _ _ _⟩
  · intro k h
    have hr : process_support_variant_answer log db answer
        = supVariantAcceptResult answer k := by
      unfold process_support_variant_answer
      simp [h]
    exact ⟨hr, by rw [hr]; exact lastAskedQid_supVariantAcceptResult _ _⟩

/-- C6 witness: the exact variant aeroshade-xl leaves SUP_Q2_VARIANT towards
SUP_Q3, matching the stored key case-insensitively. -/
theorem C6_variant_state_exits_witness :
    process_support_variant_answer []
        [("Aeroshade-kunken", [("nasello", ["uK"])]),
         ("Aeroshade-xl", [("lente-ricambio", ["uX"])])] "aeroshade-xl"
      = supVariantAcceptResult "aeroshade-xl" "Aeroshade-xl" ∧
    lastAskedQid (process_support_variant_answer []
        [("Aeroshade-kunken", [("nasello", ["uK"])]),
         ("Aeroshade-xl", [("lente-ricambio", ["uX"])])] "aeroshade-xl")
      = some "SUP_Q3" :=
  (C6_variant_state_exits []
      [("Aeroshade-kunken", [("nasello", ["uK"])]),
       ("Aeroshade-xl", [("lente-ricambio", ["uX"])])] "aeroshade-xl").2
    "Aeroshade-xl" (by decide)

lemma nextq_support_first (answer : String) :
    (process_support_first_answer answer).next_question.isSome = true := rfl

lemma nextq_support_second (db : SpareDB) (answer : String) :
    (process_support_second_answer db answer).next_question.isSome = true := by
  by_cases h : supQ2IsDontKnow (pyStrip answer) = true
  · simp [process_support_second_answer, h, supQ2DontKnowResult]
  · rcases hfind : (dbKeys db).find? (fun k => strLower k = strLower (pyStrip answer)) with _ | k
    · simp only [process_support_second_answer, h, hfind, if_false, Bool.false_eq_true]
      split_ifs <;> simp [supQ2VariantPromptResult, supQ2FinalResult]
    · simp [process_support_second_answer, h, hfind, supQ2ExactResult]

lemma nextq_support_variant (log : List Event) (db : SpareDB) (answer : String) :
    (process_support_variant_answer log db answer).next_question.isSome = true := by
  rcases hfind : (dbKeys db).find? (fun k => strLower k = strLower (pyStrip answer)) with _ | k <;>
    simp [process_support_variant_answer, hfind, supVariantRetryResult, supVariantAcceptResult]

lemma rec_support_third (log : List Event) (db : SpareDB) (answer : String) :
    (process_support_third_answer log db answer).recommendation.isSome = true := rfl

/-- C9: every conversation step handler reachable from process_answer returns
either a next question or a final recommendation; the dispatcher itself never
ends a turn with neither, whatever the log, database and answer. -/
theorem C9_no_dead_end :
    (∀ answer, (process_support_first_answer answer).next_question.isSome = true) ∧
    (∀ db answer, (process_support_second_answer db answer).next_question.isSome = true) ∧
    (∀ log db answer,
      (process_support_variant_answer log db answer).next_question.isSome = true) ∧
    (∀ log db answer,
      (process_support_third_answer log db answer).recommendation.isSome = true) ∧
    (∀ log db answer,
      (process_answer log db answer).next_question.isSome = true ∨
      (process_answer log db answer).recommendation.isSome = true) := by
  refine ⟨nextq_support_first, nextq_support_second, nextq_support_variant,
          rec_support_third, ?_⟩
  intro log db answer
  simp only [process_answer]
  split_ifs
  · exact Or.inl (nextq_support_first answer)
  · exact Or.inl (nextq_support_second db answer)
  · exact Or.inl (nextq_support_variant log db answer)
  · exact Or.inr (rec_support_third log db answer)
  · exact Or.inl rfl
  · exact Or.inl rfl
  · exact Or.inl rfl

/-- C10: an exact case-insensitive variant match re-logs, besides the
SUP_Q2_VARIANT answer, a second answer_given event for SUP_Q2 whose raw and
normalized values are the matched key, so the profile rebuilt from the
extended log carries that key as support_model, overriding any earlier SUP_Q2
answer by last-write-wins. -/
theorem C10_variant_match_relog (log : List Event) (db : SpareDB) (answer k : String)
    (hfind : (dbKeys db).find? (fun k2 => strLower k2 = strLower (pyStrip answer)) = some k)
    (hstrip : pyStrip k = k) (hne : k ≠ "")
    (hdk : profileSupQ2DontKnow (strLower k) = false) :
    (process_support_variant_answer log db answer).events
      = [evAnswerGiven "SUP_Q2_VARIANT" answer k,
         evVariantUnknown false answer,
         evAnswerGiven "SUP_Q2" k k,
         evAssistantMessage (supVariantAcceptMsg k),
         evQuestionAsked "SUP_Q3" q3PriorityText] ∧
    (build_user_profile_from_logs
        (log ++ (process_support_variant_answer log db answer).events)).support_model
      = some k := by
  have hr : process_support_variant_answer log db answer = supVariantAcceptResult answer k := by
    unfold process_support_variant_answer
    simp [hfind]
  have hev : (process_support_variant_answer log db answer).events
      = [evAnswerGiven "SUP_Q2_VARIANT" answer k,
         evVariantUnknown false answer,
         evAnswerGiven "SUP_Q2" k k,
         evAssistantMessage (supVariantAcceptMsg k),
         evQuestionAsked "SUP_Q3" q3PriorityText] := by
    rw [hr]; rfl
  refine ⟨hev, ?_⟩
  rw [hev, build_append log _ ?hflow]
  case hflow =>
    intro e he
    simp only [List.mem_cons, List.not_mem_nil, or_false] at he
    rcases he with rfl | rfl | rfl | rfl | rfl <;>
      simp [evAnswerGiven, evVariantUnknown, evAssistantMessage, evQuestionAsked, baseEvent]
  simp only [List.foldl_cons, List.foldl_nil]
  have s1 : applyAnswerEvent (build_user_profile_from_logs log)
      (evAnswerGiven "SUP_Q2_VARIANT" answer k) = build_user_profile_from_logs log := by
    simp [applyAnswerEvent, evAnswerGiven, baseEvent]
  have s2 : ∀ q : Profile, applyAnswerEvent q (evVariantUnknown false answer) = q := by
    intro q; simp [applyAnswerEvent, evVariantUnknown, baseEvent]
  have s4 : ∀ q : Profile,
      applyAnswerEvent q (evAssistantMessage (supVariantAcceptMsg k)) = q := by
    intro q; simp [applyAnswerEvent, evAssistantMessage, baseEvent]
  have s5 : ∀ q : Profile,
      applyAnswerEvent q (evQuestionAsked "SUP_Q3" q3PriorityText) = q := by
    intro q; simp [applyAnswerEvent, evQuestionAsked, baseEvent]
  rw [s1, s2, s4, s5]
  by_cases hdash : containsSub "-" k = true
  · simp [applyAnswerEvent, evAnswerGiven, baseEvent, hstrip, hdk, hne, hdash]
  · simp [applyAnswerEvent, evAnswerGiven, baseEvent, hstrip, hdk, hne, hdash, pyOr]

/-- C10 witness: after an earlier SUP_Q2 answer Aeroshade, the variant answer
aeroshade-xl re-logs the key Aeroshade-xl as the SUP_Q2 answer and the rebuilt
profile carries it as support_model. -/
theorem C10_variant_match_relog_witness :
    (process_support_variant_answer
        [evFlowDetected "support_flow", evAnswerGiven "SUP_Q2" "Aeroshade" "Aeroshade"]
        [("Aeroshade-kunken", [("nasello", ["uK"])]),
         ("Aeroshade-xl", [("lente-ricambio", ["uX"])])] "aeroshade-xl").events
      = [evAnswerGiven "SUP_Q2_VARIANT" "aeroshade-xl" "Aeroshade-xl",
         evVariantUnknown false "aeroshade-xl",
         evAnswerGiven "SUP_Q2" "Aeroshade-xl" "Aeroshade-xl",
         evAssistantMessage (supVariantAcceptMsg "Aeroshade-xl"),
         evQuestionAsked "SUP_Q3" q3PriorityText] ∧
    (build_user_profile_from_logs
        ([evFlowDetected "support_flow", evAnswerGiven "SUP_Q2" "Aeroshade" "Aeroshade"] ++
          (process_support_variant_answer
            [evFlowDetected "support_flow", evAnswerGiven "SUP_Q2" "Aeroshade" "Aeroshade"]
            [("Aeroshade-kunken", [("nasello", ["uK"])]),
             ("Aeroshade-xl", [("lente-ricambio", ["uX"])])] "aeroshade-xl").events)).support_model
      = some "Aeroshade-xl" :=
  C10_variant_match_relog
    [evFlowDetected "support_flow", evAnswerGiven "SUP_Q2" "Aeroshade" "Aeroshade"]
    [("Aeroshade-kunken", [("nasello", ["uK"])]),
     ("Aeroshade-xl", [("lente-ricambio", ["uX"])])]
    "aeroshade-xl" "Aeroshade-xl" (by decide) (by decide) (by decide) (by decide)

lemma isEmpty_false_of_ne_nil {α : Type} {l : List α} (h : l ≠ []) : l.isEmpty = false := by
  cases l with
  | nil => exact absurd rfl h
  | cons a t => rfl

lemma head?_isSome_of_ne_nil {α : Type} {l : List α} (h : l ≠ []) : l.head?.isSome = true := by
  cases l with
  | nil => exact absurd rfl h
  | cons a t => rfl

lemma rmk_none_of_empty (model : String) (db : SpareDB) (issue : Option String)
    (h : model = "" ∨ db = []) : resolve_model_key model db issue = none := by
  unfold resolve_model_key
  rcases h with h | h <;> simp [h]

lemma rmk_exact_cs (model : String) (db : SpareDB) (issue : Option String)
    (hm : model ≠ "") (hdb : db ≠ []) (hget : (dbGet db model).isSome = true) :
    resolve_model_key model db issue = some model := by
  unfold resolve_model_key
  simp [hm, isEmpty_false_of_ne_nil hdb, hget]

lemma rmk_exact_ci (model : String) (db : SpareDB) (issue : Option String)
    (hm : model ≠ "") (hdb : db ≠ []) (hget : dbGet db model = none) (k : String)
    (hfind : (dbKeys db).find?
        (fun k2 => strLower (pyStrip k2) = strLower (pyStrip model)) = some k) :
    resolve_model_key model db issue = some k := by
  unfold resolve_model_key
  simp [hm, isEmpty_false_of_ne_nil hdb, hget, hfind]

lemma rmk_prefix_empty (model : String) (db : SpareDB) (issue : Option String)
    (hm : model ≠ "") (hdb : db ≠ []) (hget : dbGet db model = none)
    (hfind : (dbKeys db).find?
        (fun k2 => strLower (pyStrip k2) = strLower (pyStrip model)) = none)
    (hc : rmkCandidates db (strLower (pyStrip model)) = []) :
    resolve_model_key model db issue = none := by
  unfold resolve_model_key
  simp [hm, isEmpty_false_of_ne_nil hdb, hget, hfind, hc]

lemma rmk_prefix_issue (model : String) (db : SpareDB) (issue : Option String)
    (hm : model ≠ "") (hdb : db ≠ []) (hget : dbGet db model = none)
    (hfind : (dbKeys db).find?
        (fun k2 => strLower (pyStrip k2) = strLower (pyStrip model)) = none)
    (hc : rmkCandidates db (strLower (pyStrip model)) ≠ []) (iss : String)
    (hiss : rmkIssueEff issue = some iss)
    (hIM : rmkIssueMatches db (rmkCandidates db (strLower (pyStrip model)))
        (rmkIssueKey iss) ≠ []) :
    resolve_model_key model db issue
      = (sortByLen (rmkIssueMatches db (rmkCandidates db (strLower (pyStrip model)))
          (rmkIssueKey iss))).head? := by
  unfold resolve_model_key
  by_cases h1 : (rmkIssueMatches db (rmkCandidates db (strLower (pyStrip model)))
      (rmkIssueKey iss)).length = 1
  · obtain ⟨x, hx⟩ := List.length_eq_one.mp h1
    simp [hm, isEmpty_false_of_ne_nil hdb, hget, hfind, isEmpty_false_of_ne_nil hc,
          hiss, hx, sortByLen_singleton]
  · have h0 : (rmkIssueMatches db (rmkCandidates db (strLower (pyStrip model)))
        (rmkIssueKey iss)).length ≠ 0 := by
      simpa [List.length_eq_zero] using hIM
    have h2 : (rmkIssueMatches db (rmkCandidates db (strLower (pyStrip model)))
        (rmkIssueKey iss)).length > 1 := by omega
    simp [hm, isEmpty_false_of_ne_nil hdb, hget, hfind, isEmpty_false_of_ne_nil hc,
          hiss, h1, h2]

lemma rmk_prefix_no_hint (model : String) (db : SpareDB) (issue : Option String)
    (hm : model ≠ "") (hdb : db ≠ []) (hget : dbGet db model = none)
    (hfind : (dbKeys db).find?
        (fun k2 => strLower (pyStrip k2) = strLower (pyStrip model)) = none)
    (hc : rmkCandidates db (strLower (pyStrip model)) ≠ [])
    (hiss : rmkIssueEff issue = none) :
    resolve_model_key model db issue
      = (sortByLen (rmkCandidates db (strLower (pyStrip model)))).head? := by
  unfold resolve_model_key
  simp [hm, isEmpty_false_of_ne_nil hdb, hget, hfind, isEmpty_false_of_ne_nil hc, hiss]

lemma rmk_prefix_hint_unmatched (model : String) (db : SpareDB) (issue : Option String)
    (hm : model ≠ "") (hdb : db ≠ []) (hget : dbGet db model = none)
    (hfind : (dbKeys db).find?
        (fun k2 => strLower (pyStrip k2) = strLower (pyStrip model)) = none)
    (hc : rmkCandidates db (strLower (pyStrip model)) ≠ []) (iss : String)
    (hiss : rmkIssueEff issue = some iss)
    (hIM : rmkIssueMatches db (rmkCandidates db (strLower (pyStrip model)))
        (rmkIssueKey iss) = []) :
    resolve_model_key model db issue
      = (sortByLen (rmkCandidates db (strLower (pyStrip model)))).head? := by
  unfold resolve_model_key
  simp [hm, isEmpty_false_of_ne_nil hdb, hget, hfind, isEmpty_false_of_ne_nil hc,
        hiss, hIM]

lemma rmk_isSome_of_cands (model : String) (db : SpareDB) (issue : Option String)
    (hm : model ≠ "") (hdb : db ≠ []) (hget : dbGet db model = none)
    (hfind : (dbKeys db).find?
        (fun k2 => strLower (pyStrip k2) = strLower (pyStrip model)) = none)
    (hc : rmkCandidates db (strLower (pyStrip model)) ≠ []) :
    (resolve_model_key model db issue).isSome = true := by
  have hcs : sortByLen (rmkCandidates db (strLower (pyStrip model))) ≠ [] := by
    simpa [sortByLen_eq_nil_iff] using hc
  cases hiss : rmkIssueEff issue with
  | none =>
    rw [rmk_prefix_no_hint model db issue hm hdb hget hfind hc hiss]
    exact head?_isSome_of_ne_nil hcs
  | some iss =>
    by_cases hIM : rmkIssueMatches db (rmkCandidates db (strLower (pyStrip model)))
        (rmkIssueKey iss) = []
    · rw [rmk_prefix_hint_unmatched model db issue hm hdb hget hfind hc iss hiss hIM]
      exact head?_isSome_of_ne_nil hcs
    · rw [rmk_prefix_issue model db issue hm hdb hget hfind hc iss hiss hIM]
      exact head?_isSome_of_ne_nil (by simpa [sortByLen_eq_nil_iff] using hIM)

/-- C8: resolve_model_key resolves in order — exact key match (case-sensitive,
then case-insensitive), then among the prefix candidates an issue hint prefers
the candidates whose issue map contains the canonicalized hint with the
shortest key winning ties, otherwise the shortest prefix candidate wins — and
it returns none exactly when the input is empty, the database is empty, or no
key matches exactly or by prefix. -/
theorem C8_resolve_model_key (model : String) (db : SpareDB) (issue : Option String) :
    ((model = "" ∨ db = []) → resolve_model_key model db issue = none) ∧
    (model ≠ "" → db ≠ [] → (dbGet db model).isSome = true →
       resolve_model_key model db issue = some model) ∧
    (model ≠ "" → db ≠ [] → dbGet db model = none →
       ∀ k, (dbKeys db).find?
           (fun k2 => strLower (pyStrip k2) = strLower (pyStrip model)) = some k →
         resolve_model_key model db issue = some k) ∧
    (model ≠ "" → db ≠ [] → dbGet db model = none →
       (dbKeys db).find?
           (fun k2 => strLower (pyStrip k2) = strLower (pyStrip model)) = none →
       rmkCandidates db (strLower (pyStrip model)) = [] →
         resolve_model_key model db issue = none) ∧
    (model ≠ "" → db ≠ [] → dbGet db model = none →
       (dbKeys db).find?
           (fun k2 => strLower (pyStrip k2) = strLower (pyStrip model)) = none →
       rmkCandidates db (strLower (pyStrip model)) ≠ [] →
       ∀ iss, rmkIssueEff issue = some iss →
       rmkIssueMatches db (rmkCandidates db (strLower (pyStrip model)))
           (rmkIssueKey iss) ≠ [] →
         resolve_model_key model db issue
           = (sortByLen (rmkIssueMatches db (rmkCandidates db (strLower (pyStrip model)))
               (rmkIssueKey iss))).head?) ∧
    (model ≠ "" → db ≠ [] → dbGet db model = none →
       (dbKeys db).find?
           (fun k2 => strLower (pyStrip k2) = strLower (pyStrip model)) = none →
       rmkCandidates db (strLower (pyStrip model)) ≠ [] →
       rmkIssueEff issue = none →
         resolve_model_key model db issue
           = (sortByLen (rmkCandidates db (strLower (pyStrip model)))).head?) ∧
    (model ≠ "" → db ≠ [] → dbGet db model = none →
       (dbKeys db).find?
           (fun k2 => strLower (pyStrip k2) = strLower (pyStrip model)) = none →
       rmkCandidates db (strLower (pyStrip model)) ≠ [] →
       ∀ iss, rmkIssueEff issue = some iss →
       rmkIssueMatches db (rmkCandidates db (strLower (pyStrip model)))
           (rmkIssueKey iss) = [] →
         resolve_model_key model db issue
           = (sortByLen (rmkCandidates db (strLower (pyStrip model)))).head?) ∧
    (resolve_model_key model db issue = none ↔
       model = "" ∨ db = [] ∨
       (dbGet db model = none ∧
        (dbKeys db).find?
            (fun k2 => strLower (pyStrip k2) = strLower (pyStrip model)) = none ∧
        rmkCandidates db (strLower (pyStrip model)) = [])) ∧
    (∀ (l : List String) (x : String), (sortByLen l).head? = some x →
       x ∈ l ∧ ∀ y ∈ l, x.length ≤ y.length) := by
  refine ⟨rmk_none_of_empty model db issue,
          rmk_exact_cs model db issue,
          fun hm hdb hget k hfind => rmk_exact_ci model db issue hm hdb hget k hfind,
          rmk_prefix_empty model db issue,
          fun hm hdb hget hfind hc iss hiss hIM =>
            rmk_prefix_issue model db issue hm hdb hget hfind hc iss hiss hIM,
          rmk_prefix_no_hint model db issue,
          fun hm hdb hget hfind hc iss hiss hIM =>
            rmk_prefix_hint_unmatched model db issue hm hdb hget hfind hc iss hiss hIM,
          ?_, sortByLen_head_shortest⟩
  constructor
  · intro hnone
    by_cases hm : model = ""
    · exact Or.inl hm
    by_cases hdb : db = []
    · exact Or.inr (Or.inl hdb)
    by_cases hget : (dbGet db model).isSome = true
    · rw [rmk_exact_cs model db issue hm hdb hget] at hnone
      cases hnone
    have hget' : dbGet db model = none := by
      cases hdbg : dbGet db model with
      | none => rfl
      | some m => rw [hdbg] at hget; simp at hget
    rcases hfind : (dbKeys db).find?
        (fun k2 => strLower (pyStrip k2) = strLower (pyStrip model)) with _ | k
    · by_cases hc : rmkCandidates db (strLower (pyStrip model)) = []
      · exact Or.inr (Or.inr ⟨hget', rfl, hc⟩)

      · have hs := rmk_isSome_of_cands model db issue hm hdb hget' hfind hc
        rw [hnone] at hs
        cases hs
    · rw [rmk_exact_ci model db issue hm hdb hget' k hfind] at hnone
      cases hnone
  · intro h
    rcases h with h | h | ⟨hget, hfind, hc⟩
    · exact rmk_none_of_empty model db issue (Or.inl h)
    · exact rmk_none_of_empty model db issue (Or.inr h)
    · by_cases hm : model = ""
      · exact rmk_none_of_empty model db issue (Or.inl hm)
      by_cases hdb : db = []
      · exact rmk_none_of_empty model db issue (Or.inr hdb)
      exact rmk_prefix_empty model db issue hm hdb hget hfind hc

/-- C8 witness: with both Aeroshade variants matching the prefix aeroshade and
an issue hint nasello held only by Aeroshade-xl, the hinted candidate wins. -/
theorem C8_resolve_model_key_witness :
    resolve_model_key "aeroshade"
        [("Aeroshade-kunken", [("lente-ricambio", ["uK"])]),
         ("Aeroshade-xl", [("nasello", ["uX"])])] (some "nasello")
      = some "Aeroshade-xl" := by
  have h := (C8_resolve_model_key "aeroshade"
      [("Aeroshade-kunken", [("lente-ricambio", ["uK"])]),
       ("Aeroshade-xl", [("nasello", ["uX"])])] (some "nasello")).2.2.2.2.1
      (by decide) (by decide) (by decide) (by decide) (by decide)
      "nasello" (by decide) (by decide)
  rw [h]
  decide

/-! ### Sanity checks on concrete inputs -/

example : normalize_terrain "Vado su Strada" = "strada" := by decide
example : normalize_rx_prescription_status "" = "presente" := by decide
example : normalize_light_condition "sole e ombra" = "variabile" := by decide
example : normalize_support_model "ho una AeroShade rossa" = "Aeroshade" := by decide

example :
    (build_user_profile_from_logs
      [evFlowDetected "support_flow",
       evAnswerGiven "SUP_Q1" "si è rotta la lente" "lente",
       evAnswerGiven "SUP_Q2" "Aeroshade" "Aeroshade",
       evAnswerGiven "SUP_Q2" "aeroshade-xl" "Aeroshade-xl"]).support_model
    = some "aeroshade-xl" := by decide

example :
    (build_user_profile_from_logs
      [evAnswerGiven "SUP_Q1" "si è rotta la lente" "lente"]).support_issue
    = some "lente-ricambio" := by decide

example :
    resolve_model_key "aeroshade" [("Aeroshade-kunken", [("nasello", ["u1"])]),
      ("Aeroshade-xl", [("lente-ricambio", ["u2"])])] (some "lente")
    = some "Aeroshade-xl" := by decide

end Scicon
